import Mathlib

/-!
Shallow embedding of the Neo Exchange API backend (src/main.py together
with src/schemas.py) and proofs about its reconciliation, normalization
and portfolio-summary logic.

Modelling conventions:
* Numbers that Python handles as floats are modelled as exact rationals.
* A JSON field value fed to Python's float() is a JNum: either it converts
  to a number or float() raises.
* Network calls are oracles passed in as function parameters; a call that
  can fail returns Option.  A Bool component records whether an upstream
  request was actually issued where a claim depends on that.
* Option models an absent dictionary key (JSON null is not distinguished
  from an absent key).
-/

namespace NeoExchange

/-- A JSON field value as seen by Python's float(): either it converts to a
number, or float() raises (malformed string, null, nested object, ...). -/
inductive JNum where
  | num (q : ℚ)
  | bad
deriving DecidableEq

/-- The JSON body returned by the exchange 24h-ticker endpoint
(src/main.py, binance_24h).  A field is none when the key is absent. -/
structure Ticker where
  lastPrice : Option JNum
  openPrice : Option JNum
deriving DecidableEq

/-- src/main.py lines 97-106 (and the identical block at lines 134-143 in
get_coin): combine the fallback price/change pair with the exchange ticker
reply.  Mirrors the Python control flow: float() of lastPrice runs first,
and an exception there leaves both values untouched; float() of openPrice
runs after price was already assigned, so an exception there keeps the
fallback change but the exchange price; a zero open price skips the
change computation. -/
def applyTicker (price change : Option ℚ) (b : Option Ticker) : Option ℚ × Option ℚ :=
  match b with
  | none => (price, change)
  | some t =>
    match t.lastPrice with
    | none => (price, change)
    | some JNum.bad => (price, change)
    | some (JNum.num lp) =>
      match t.openPrice with
      | none => (some lp, change)
      | some JNum.bad => (some lp, change)
      | some (JNum.num op) =>
        if op = 0 then (some lp, change) else (some lp, some ((lp - op) / op * 100))

/-- A raw aggregator markets entry, restricted to the fields get_markets
reads (src/main.py lines 91-116).  none models an absent key. -/
structure RawCoin where
  id : Option String
  symbol : Option String
  name : Option String
  image : Option String
  current_price : Option ℚ
  price_change_percentage_24h : Option ℚ
deriving DecidableEq

/-- One row of the /api/markets response (src/main.py lines 108-116). -/
structure MarketRow where
  id : Option String
  symbol : Option String
  name : Option String
  image : Option String
  current_price : Option ℚ
  price_change_percentage_24h : Option ℚ
  binance_symbol : Option String
deriving DecidableEq

/-- Python str.upper() on the ASCII ticker symbols the aggregator sends. -/
def upper (s : String) : String := String.mk (s.data.map Char.toUpper)

/-- src/main.py lines 91-116: one iteration of the get_markets loop.
exchange models binance_24h, where none is any failure (non-200 status,
timeout, unlisted symbol, malformed payload). -/
def marketRow (exchange : String → Option Ticker) (coin : RawCoin) : MarketRow :=
  let symbol_uc := upper (coin.symbol.getD "")
  let binance_symbol := if symbol_uc = "" then none else some (symbol_uc ++ "USDT")
  let pc :=
    match binance_symbol with
    | none => (coin.current_price, coin.price_change_percentage_24h)
    | some s => applyTicker coin.current_price coin.price_change_percentage_24h (exchange s)
  { id := coin.id
    symbol := coin.symbol
    name := coin.name
    image := coin.image
    current_price := pc.1
    price_change_percentage_24h := pc.2
    binance_symbol := binance_symbol }

/-- src/main.py get_markets, lines 90-118: the results list built from the
raw aggregator page. -/
def get_markets (exchange : String → Option Ticker) (cg : List RawCoin) : List MarketRow :=
  cg.map (marketRow exchange)

/-- src/main.py get_coin, lines 130-151: the market_data price/change pair
of the coin-detail endpoint.  simple models
coingecko_price([coin_id]).get(coin_id), with none covering both a network
failure and a missing key. -/
def get_coin_market (exchange : String → Option Ticker) (simple : String → Option ℚ)
    (coin_id : String) (symbol : String) : Option ℚ × Option ℚ :=
  let symbol_uc := upper symbol
  let pc :=
    if symbol_uc = "" then ((none : Option ℚ), (none : Option ℚ))
    else applyTicker none none (exchange (symbol_uc ++ "USDT"))
  match pc.1 with
  | none => (simple coin_id, pc.2)
  | some p => (some p, pc.2)

/-- A default market row for indexed access via getD. -/
def defRow : MarketRow :=
  { id := none, symbol := none, name := none, image := none,
    current_price := none, price_change_percentage_24h := none, binance_symbol := none }

/-- A default raw entry for indexed access via getD. -/
def defCoin : RawCoin :=
  { id := none, symbol := none, name := none, image := none,
    current_price := none, price_change_percentage_24h := none }

/-- A markets entry for bitcoin as the aggregator would return it. -/
def coinBtc : RawCoin :=
  { id := some "bitcoin", symbol := some "btc", name := some "Bitcoin", image := none,
    current_price := some 50, price_change_percentage_24h := some 1 }

/-- An exchange oracle on which every ticker query fails. -/
def exchangeDown : String → Option Ticker := fun _ => none

/-- A ticker whose lastPrice parses to 100 but whose openPrice does not
parse as a float. -/
def tickerBadOpen : Ticker := { lastPrice := some (JNum.num 100), openPrice := some JNum.bad }

/-- An exchange oracle that answers every query with tickerBadOpen. -/
def exchangeBadOpen : String → Option Ticker := fun _ => some tickerBadOpen

/-- Error outcomes of the portfolio and history endpoints.
notFound is the explicit 404 HTTPException; invalidInput is a 400-class
client rejection (an explicit HTTPException(400) or a framework
request-validation rejection such as the Query days constraint, raised
before the handler body); upstream is the 502 raised on an aggregator
failure; validationError is an uncaught pydantic ValidationError raised
inside the handler body (the Holding amount ge-0 constraint of
src/schemas.py line 17 firing at src/main.py line 230), which the
framework surfaces as a 500 internal error, not as a 400. -/
inductive ApiError where
  | notFound
  | invalidInput
  | upstream
  | validationError
deriving DecidableEq

/-- A holding document embedded in a portfolio document (none models an
absent key, read back with .get defaults in portfolio_summary).
created_at is wall-clock metadata and is not modelled. -/
structure HoldingDoc where
  coin_id : Option String
  symbol : Option String
  amount : Option ℚ
deriving DecidableEq

/-- A transaction document embedded in a portfolio document.  The write
path (src/main.py line 256) always sets the timestamp, modelled as a
natural number; the other fields are read back with .get. -/
structure TxDoc where
  type : Option String
  coin_id : Option String
  symbol : Option String
  amount : Option ℚ
  tx_hash : Option String
  timestamp : ℕ
deriving DecidableEq

/-- A stored portfolio document (src/schemas.py Portfolio plus the arrays
the endpoints push into).  created_at/updated_at are wall-clock metadata
and are not modelled. -/
structure PortfolioDoc where
  name : String
  address : Option String
  holdings : List HoldingDoc
  transactions : List TxDoc
deriving DecidableEq

/-- The portfolio collection: documents keyed by their object id. -/
abbrev Store := List (String × PortfolioDoc)

deriving instance DecidableEq for Except

/-- find_one on the portfolio collection by id. -/
def findDoc (store : Store) (pid : String) : Option PortfolioDoc :=
  (store.find? (fun p => p.1 = pid)).map (fun p => p.2)

/-- update_one on the portfolio collection: replace the document at pid. -/
def updateDoc (store : Store) (pid : String) (d : PortfolioDoc) : Store :=
  store.map (fun p => if p.1 = pid then (pid, d) else p)

/-- The request body of POST /api/portfolio/(pid)/holdings
(src/main.py HoldingIn, lines 218-221). -/
structure HoldingIn where
  coin_id : String
  symbol : String
  amount : ℚ
deriving DecidableEq

/-- src/main.py add_holding, lines 224-237.  The Holding(...) construction
at line 230 runs the pydantic constraint amount ge 0 from src/schemas.py
line 17, so a negative amount raises a ValidationError there, before
update_one runs; that exception is not caught by the handler and the
framework surfaces it as a 500 internal error (validationError), unlike
the explicit 404 for a missing portfolio. -/
def add_holding (store : Store) (pid : String) (h : HoldingIn) : Except ApiError Store :=
  match findDoc store pid with
  | none => Except.error ApiError.notFound
  | some doc =>
    if h.amount < 0 then Except.error ApiError.validationError
    else
      Except.ok (updateDoc store pid
        { doc with holdings := doc.holdings ++
            [{ coin_id := some h.coin_id, symbol := some h.symbol, amount := some h.amount }] })

/-- The store state after an add_holding request: unchanged when the
request errors. -/
def storeAfterAdd (store : Store) (pid : String) (h : HoldingIn) : Store :=
  match add_holding store pid h with
  | Except.ok s => s
  | Except.error _ => store

/-- src/main.py coingecko_price, lines 61-71: an empty id list
short-circuits to an empty map without a network request.  fetch models
the parsed simple/price response for the queried ids.  The Bool records
whether the network was contacted. -/
def coingecko_price (fetch : List String → List (String × ℚ)) (coin_ids : List String) :
    List (String × ℚ) × Bool :=
  if coin_ids.isEmpty then ([], false) else (fetch coin_ids, true)

/-- Python dict .get on a string-keyed map. -/
def lookupP (m : List (String × ℚ)) (k : String) : Option ℚ :=
  (m.find? (fun p => p.1 = k)).map (fun p => p.2)

/-- src/main.py line 271: the distinct truthy coin ids across holdings. -/
def coinIdsOf (holdings : List HoldingDoc) : List String :=
  ((holdings.filterMap (fun h => h.coin_id)).filter (fun s => s ≠ "")).dedup

/-- One row of the summary's holdings list (src/main.py lines 283-289). -/
structure HoldingItem where
  coin_id : Option String
  symbol : Option String
  amount : ℚ
  price : ℚ
  value : ℚ
deriving DecidableEq

/-- src/main.py lines 276-289: one iteration of the holdings loop.
prices.get(None, 0) is 0 because the price map has string keys only. -/
def itemOf (prices : List (String × ℚ)) (h : HoldingDoc) : HoldingItem :=
  let amt := h.amount.getD 0
  let price :=
    match h.coin_id with
    | none => 0
    | some cid => (lookupP prices cid).getD 0
  { coin_id := h.coin_id, symbol := h.symbol, amount := amt, price := price,
    value := amt * price }

/-- The body of the summary response (src/main.py lines 298-312).  The
transaction projection at lines 301-311 copies exactly the modelled
fields, so the output transactions are the sorted, truncated TxDoc list
itself. -/
structure Summary where
  total_value : ℚ
  holdings : List HoldingItem
  transactions : List TxDoc
deriving DecidableEq

/-- The order produced by sorted(txs, key=timestamp, reverse=True):
later timestamps first. -/
def tsDesc (a b : TxDoc) : Prop := b.timestamp ≤ a.timestamp

instance : DecidableRel tsDesc := fun a b => Nat.decLe b.timestamp a.timestamp

instance : IsTotal TxDoc tsDesc := ⟨fun a b => Nat.le_total b.timestamp a.timestamp⟩

instance : IsTrans TxDoc tsDesc := ⟨fun _ _ _ hab hbc => le_trans hbc hab⟩

/-- src/main.py portfolio_summary, lines 264-312, for a found document.
Python's sorted is a stable sort; List.insertionSort is the stable sort of
the model.  The Bool records whether the batch price endpoint was
contacted. -/
def portfolio_summary (fetch : List String → List (String × ℚ)) (doc : PortfolioDoc) :
    Summary × Bool :=
  let pr := coingecko_price fetch (coinIdsOf doc.holdings)
  let items := doc.holdings.map (itemOf pr.1)
  let txs_sorted := (doc.transactions.insertionSort tsDesc).take 20
  ({ total_value := (items.map (fun it => it.value)).sum
     holdings := items
     transactions := txs_sorted }, pr.2)

/-- The price map portfolio_summary looks holdings up in. -/
def pricesFor (fetch : List String → List (String × ℚ)) (doc : PortfolioDoc) :
    List (String × ℚ) :=
  (coingecko_price fetch (coinIdsOf doc.holdings)).1

/-- src/main.py coin_history, lines 167-179.  The Query constraint on days
(ge 1, le 365, line 168) is checked by the framework before the handler
body runs, hence before any upstream request.  fetchChart models the
market_chart call, none being an upstream failure; the Bool records
whether the upstream was contacted. -/
def coin_history (fetchChart : String → ℤ → Option (List (ℤ × ℚ)))
    (coin_id : String) (days : ℤ) : Except ApiError (List (ℤ × ℚ)) × Bool :=
  if days < 1 ∨ 365 < days then (Except.error ApiError.invalidInput, false)
  else
    match fetchChart coin_id days with
    | none => (Except.error ApiError.upstream, true)
    | some prices => (Except.ok prices, true)

/-- A default holding document for indexed access via getD. -/
def defHoldingDoc : HoldingDoc := { coin_id := none, symbol := none, amount := none }

/-- A default summary row for indexed access via getD. -/
def defItem : HoldingItem :=
  { coin_id := none, symbol := none, amount := 0, price := 0, value := 0 }

/-- A one-portfolio store for concrete runs. -/
def store1 : Store :=
  [("p1", { name := "p", address := none, holdings := [], transactions := [] })]

/-- The btc/eth example portfolio of the spec. -/
def btcEthDoc : PortfolioDoc :=
  { name := "p", address := none,
    holdings := [{ coin_id := some "btc", symbol := some "btc", amount := some 2 },
                 { coin_id := some "eth", symbol := some "eth", amount := some 10 }],
    transactions := [] }

/-- The price oracle of the btc/eth example. -/
def btcEthFetch : List String → List (String × ℚ) :=
  fun _ => [("btc", 50000), ("eth", 3000)]

/-- A portfolio with no holdings. -/
def emptyDoc : PortfolioDoc :=
  { name := "e", address := none, holdings := [], transactions := [] }

/-- A portfolio holding a coin the price oracle does not know. -/
def missDoc : PortfolioDoc :=
  { name := "m", address := none,
    holdings := [{ coin_id := some "dot", symbol := some "dot", amount := some 5 }],
    transactions := [] }

/-- A price oracle that never answers for "dot". -/
def missFetch : List String → List (String × ℚ) := fun _ => [("btc", 7)]

/-- C1 counterexample: with every exchange ticker query failing, the
bitcoin market row still carries binance_symbol = "BTCUSDT" rather than
null, refuting the claim that the returned exchange symbol is null
whenever the exchange query failed. -/
theorem C1_counterexample :
    exchangeDown "BTCUSDT" = none ∧
    (marketRow exchangeDown coinBtc).binance_symbol = some "BTCUSDT" ∧
    (marketRow exchangeDown coinBtc).binance_symbol ≠ none := by
  refine ⟨rfl, ?_, ?_⟩ <;> decide

/-- C1 (amended): for every market row the returned binance_symbol is the
candidate uppercase(symbol) ++ "USDT" whenever the uppercased symbol is
nonempty, and null exactly when it is empty, independent of the outcome of
the exchange ticker query. -/
theorem C1_amended (exchange : String → Option Ticker) (coin : RawCoin) :
    (marketRow exchange coin).binance_symbol =
      (if upper (coin.symbol.getD "") = "" then none
       else some (upper (coin.symbol.getD "") ++ "USDT")) := rfl

/-- C2: get_markets yields exactly one output row per input entry, in input
order: the output length equals the input length and the row at index i is
the one derived from the input entry at index i. -/
theorem C2_one_row_per_entry (exchange : String → Option Ticker) (cg : List RawCoin)
    (i : ℕ) (hi : i < cg.length) :
    (get_markets exchange cg).length = cg.length ∧
    (get_markets exchange cg).getD i defRow = marketRow exchange (cg.getD i defCoin) := by
  refine ⟨by simp [get_markets], ?_⟩
  rw [get_markets, List.getD_eq_getElem?_getD, List.getD_eq_getElem?_getD,
      List.getElem?_map, List.getElem?_eq_getElem hi]
  rfl

/-- C2 witness at a concrete two-entry page, index 1. -/
theorem C2_witness :
    (get_markets exchangeDown [coinBtc, coinBtc]).length = [coinBtc, coinBtc].length ∧
    (get_markets exchangeDown [coinBtc, coinBtc]).getD 1 defRow
      = marketRow exchangeDown ([coinBtc, coinBtc].getD 1 defCoin) :=
  C2_one_row_per_entry exchangeDown [coinBtc, coinBtc] 1 (by decide)

/-- C3: when the exchange ticker's open price is 0, the 24h change is never
computed from the exchange data; the fallback change value is returned
unchanged (the zero guard at src/main.py lines 103 and 140). -/
theorem C3_zero_open_uses_fallback (price change : Option ℚ) (t : Ticker)
    (h : t.openPrice = some (JNum.num 0)) :
    (applyTicker price change (some t)).2 = change := by
  rcases t with ⟨lp, op⟩
  obtain rfl : op = some (JNum.num 0) := h
  rcases lp with _ | j
  · rfl
  · rcases j with q | _
    · simp [applyTicker]
    · rfl

/-- C3 witness on a concrete zero-open ticker. -/
theorem C3_witness :
    (applyTicker (some 50) (some 1)
        (some { lastPrice := some (JNum.num 100), openPrice := some (JNum.num 0) })).2
      = some 1 :=
  C3_zero_open_uses_fallback (some 50) (some 1) _ rfl

/-- C5 counterexample: a ticker whose lastPrice parses to 100 but whose
openPrice fails the numeric parse leaves the row's price at the exchange
value 100, not at the aggregator's original 50, refuting the claim that
every numeric parse failure passes the aggregator price through
untouched. -/
theorem C5_counterexample :
    tickerBadOpen.lastPrice = some (JNum.num 100) ∧
    tickerBadOpen.openPrice = some JNum.bad ∧
    coinBtc.current_price = some 50 ∧
    (marketRow exchangeBadOpen coinBtc).current_price = some 100 ∧
    (marketRow exchangeBadOpen coinBtc).current_price ≠ coinBtc.current_price := by
  refine ⟨rfl, rfl, rfl, ?_, ?_⟩ <;> decide

/-- C5 (amended): no market row ever propagates an exchange or parse error
(marketRow is a total function); when the exchange query fails, the symbol
is not listed, or the ticker's lastPrice is absent or fails numeric
parsing, the aggregator's price and change pass through untouched; when
lastPrice parses but openPrice fails numeric parsing, the row's price is
the exchange last price while only the change passes through. -/
theorem C5_amended (exchange : String → Option Ticker) (coin : RawCoin) :
    ((marketRow exchange coin).binance_symbol = none →
      (marketRow exchange coin).current_price = coin.current_price ∧
      (marketRow exchange coin).price_change_percentage_24h
        = coin.price_change_percentage_24h) ∧
    (∀ s, (marketRow exchange coin).binance_symbol = some s → exchange s = none →
      (marketRow exchange coin).current_price = coin.current_price ∧
      (marketRow exchange coin).price_change_percentage_24h
        = coin.price_change_percentage_24h) ∧
    (∀ s t, (marketRow exchange coin).binance_symbol = some s → exchange s = some t →
      (t.lastPrice = none ∨ t.lastPrice = some JNum.bad) →
      (marketRow exchange coin).current_price = coin.current_price ∧
      (marketRow exchange coin).price_change_percentage_24h
        = coin.price_change_percentage_24h) ∧
    (∀ s t lp, (marketRow exchange coin).binance_symbol = some s → exchange s = some t →
      t.lastPrice = some (JNum.num lp) → t.openPrice = some JNum.bad →
      (marketRow exchange coin).current_price = some lp ∧
      (marketRow exchange coin).price_change_percentage_24h
        = coin.price_change_percentage_24h) := by
  by_cases hu : upper (coin.symbol.getD "") = ""
  · refine ⟨fun _ => ?_, fun s hs => ?_, fun s t hs => ?_, fun s t lp hs => ?_⟩
    · constructor <;> simp [marketRow, hu]
    all_goals simp [marketRow, hu] at hs
  · have hbs : (marketRow exchange coin).binance_symbol
        = some (upper (coin.symbol.getD "") ++ "USDT") := by
      simp [marketRow, hu]
    refine ⟨fun hn => ?_, fun s hs hx => ?_, fun s t hs hx hlp => ?_,
            fun s t lp hs hx hlp hop => ?_⟩
    · rw [hbs] at hn; cases hn
    · rw [hbs] at hs; injection hs with hs; subst hs
      constructor <;> simp [marketRow, hu, hx, applyTicker]
    · rw [hbs] at hs; injection hs with hs; subst hs
      rcases hlp with hlp | hlp <;>
        (constructor <;> simp [marketRow, hu, hx, applyTicker, hlp])
    · rw [hbs] at hs; injection hs with hs; subst hs
      constructor <;> simp [marketRow, hu, hx, applyTicker, hlp, hop]

/-- C5 witness: with the exchange down, the bitcoin row passes both
aggregator fields through untouched. -/
theorem C5_witness :
    (marketRow exchangeDown coinBtc).current_price = coinBtc.current_price ∧
    (marketRow exchangeDown coinBtc).price_change_percentage_24h
      = coinBtc.price_change_percentage_24h :=
  (C5_amended exchangeDown coinBtc).2.1 "BTCUSDT" (by decide) rfl

/-- C4 counterexample: adding amount -1 to the existing portfolio p1 fails
with the uncaught pydantic validationError, which the framework surfaces
as a 500 internal error, not with the 400-class invalidInput the claim
asserts; so the claim's error classification is false at this input (the
store is indeed left unchanged). -/
theorem C4_counterexample :
    add_holding store1 "p1" { coin_id := "bitcoin", symbol := "btc", amount := -1 }
        = Except.error ApiError.validationError ∧
    add_holding store1 "p1" { coin_id := "bitcoin", symbol := "btc", amount := -1 }
        ≠ Except.error ApiError.invalidInput ∧
    storeAfterAdd store1 "p1" { coin_id := "bitcoin", symbol := "btc", amount := -1 }
        = store1 := by
  refine ⟨?_, ?_, ?_⟩ <;> decide

/-- C4 (amended): adding a holding with a negative amount to an existing
portfolio fails — the pydantic ge-0 constraint raises an uncaught
ValidationError surfaced as a 500 internal error rather than a
400-equivalent InvalidInput — and produces no mutation of the stored
portfolio. -/
theorem C4_negative_amount_rejected (store : Store) (pid : String) (h : HoldingIn)
    (hex : (findDoc store pid).isSome = true) (hneg : h.amount < 0) :
    add_holding store pid h = Except.error ApiError.validationError ∧
    storeAfterAdd store pid h = store := by
  rcases Option.isSome_iff_exists.mp hex with ⟨doc, hdoc⟩
  refine ⟨?_, ?_⟩
  · simp [add_holding, hdoc, hneg]
  · simp [storeAfterAdd, add_holding, hdoc, hneg]

/-- C4 witness: amount -1 on the one-portfolio store. -/
theorem C4_witness :
    add_holding store1 "p1" { coin_id := "bitcoin", symbol := "btc", amount := -1 }
        = Except.error ApiError.validationError ∧
    storeAfterAdd store1 "p1" { coin_id := "bitcoin", symbol := "btc", amount := -1 }
        = store1 :=
  C4_negative_amount_rejected store1 "p1"
    { coin_id := "bitcoin", symbol := "btc", amount := -1 } (by decide) (by norm_num)

/-- C6: every summary holding row's value is amount times price with the
price taken from the batch price lookup, the total value is the sum of the
row values, and on the btc/eth example the total is 130000 with row values
100000 and 30000. -/
theorem C6_summary_values (fetch : List String → List (String × ℚ)) (doc : PortfolioDoc) :
    ((portfolio_summary fetch doc).1.holdings.map (fun it => it.value))
        = ((portfolio_summary fetch doc).1.holdings.map (fun it => it.amount * it.price)) ∧
    ((portfolio_summary fetch doc).1.holdings.map (fun it => it.price))
        = (doc.holdings.map (fun h =>
            match h.coin_id with
            | none => (0 : ℚ)
            | some cid => (lookupP (pricesFor fetch doc) cid).getD 0)) ∧
    (portfolio_summary fetch doc).1.total_value
        = ((portfolio_summary fetch doc).1.holdings.map (fun it => it.value)).sum ∧
    (portfolio_summary btcEthFetch btcEthDoc).1.total_value = 130000 ∧
    ((portfolio_summary btcEthFetch btcEthDoc).1.holdings.map (fun it => it.value))
        = [100000, 30000] := by
  have hp : pricesFor btcEthFetch btcEthDoc = [("btc", 50000), ("eth", 3000)] := by decide
  have hb : lookupP [("btc", (50000 : ℚ)), ("eth", 3000)] "btc" = some 50000 := by decide
  have he : lookupP [("btc", (50000 : ℚ)), ("eth", 3000)] "eth" = some 3000 := by decide
  refine ⟨?_, ?_, rfl, ?_, ?_⟩
  · simp [portfolio_summary, itemOf]
  · simp [portfolio_summary, itemOf, pricesFor]
  · have htot : (portfolio_summary btcEthFetch btcEthDoc).1.total_value
        = ((btcEthDoc.holdings.map (itemOf (pricesFor btcEthFetch btcEthDoc))).map
            (fun it => it.value)).sum := rfl
    rw [htot, hp]
    simp [btcEthDoc, itemOf, hb, he]
    norm_num
  · have hmap : (portfolio_summary btcEthFetch btcEthDoc).1.holdings
        = btcEthDoc.holdings.map (itemOf (pricesFor btcEthFetch btcEthDoc)) := rfl
    rw [hmap, hp]
    simp [btcEthDoc, itemOf, hb, he]
    norm_num

/-- C7: the summary's transaction list never exceeds 20 entries and is
sorted by timestamp in descending order, for every portfolio document. -/
theorem C7_tx_list (fetch : List String → List (String × ℚ)) (doc : PortfolioDoc) :
    (portfolio_summary fetch doc).1.transactions.length ≤ 20 ∧
    List.Sorted tsDesc (portfolio_summary fetch doc).1.transactions := by
  constructor
  · show ((doc.transactions.insertionSort tsDesc).take 20).length ≤ 20
    exact List.length_take_le 20 _
  · show List.Sorted tsDesc ((doc.transactions.insertionSort tsDesc).take 20)
    exact (List.sorted_insertionSort tsDesc _).sublist (List.take_sublist 20 _)

/-- C8: a history request with days outside [1, 365] is rejected as
invalid input with no upstream call issued. -/
theorem C8_days_range (fetchChart : String → ℤ → Option (List (ℤ × ℚ)))
    (coin_id : String) (days : ℤ) (hd : days < 1 ∨ 365 < days) :
    coin_history fetchChart coin_id days = (Except.error ApiError.invalidInput, false) := by
  unfold coin_history
  rw [if_pos hd]

/-- C8 witness at days = 400. -/
theorem C8_witness :
    coin_history (fun _ _ => none) "bitcoin" 400
      = (Except.error ApiError.invalidInput, false) :=
  C8_days_range (fun _ _ => none) "bitcoin" 400 (Or.inr (by norm_num))

/-- C9: a portfolio with no holdings summarizes to total value 0 and an
empty holdings list, and the batch price lookup short-circuits on the
empty coin-id list without contacting the network. -/
theorem C9_empty_holdings (fetch : List String → List (String × ℚ)) (doc : PortfolioDoc)
    (he : doc.holdings = []) :
    (portfolio_summary fetch doc).1.total_value = 0 ∧
    (portfolio_summary fetch doc).1.holdings = [] ∧
    (portfolio_summary fetch doc).2 = false := by
  refine ⟨?_, ?_, ?_⟩ <;> simp [portfolio_summary, he, coinIdsOf, coingecko_price]

/-- C9 witness on a concrete empty portfolio. -/
theorem C9_witness :
    (portfolio_summary missFetch emptyDoc).1.total_value = 0 ∧
    (portfolio_summary missFetch emptyDoc).1.holdings = [] ∧
    (portfolio_summary missFetch emptyDoc).2 = false :=
  C9_empty_holdings missFetch emptyDoc rfl

/-- C10: a holding whose coin id is absent from the batch price response is
not an error: its row still appears (one row per holding), its price and
value are 0, and the total remains the sum of the row values, so the
missing coin contributes nothing. -/
theorem C10_missing_price (fetch : List String → List (String × ℚ)) (doc : PortfolioDoc)
    (i : ℕ) (hi : i < doc.holdings.length) (cid : String)
    (hc : (doc.holdings.getD i defHoldingDoc).coin_id = some cid)
    (hm : lookupP (pricesFor fetch doc) cid = none) :
    (portfolio_summary fetch doc).1.holdings.length = doc.holdings.length ∧
    ((portfolio_summary fetch doc).1.holdings.getD i defItem).price = 0 ∧
    ((portfolio_summary fetch doc).1.holdings.getD i defItem).value = 0 ∧
    (portfolio_summary fetch doc).1.total_value
        = ((portfolio_summary fetch doc).1.holdings.map (fun it => it.value)).sum := by
  have hmap : (portfolio_summary fetch doc).1.holdings
      = doc.holdings.map (itemOf (pricesFor fetch doc)) := rfl
  have hgd : (portfolio_summary fetch doc).1.holdings.getD i defItem
      = itemOf (pricesFor fetch doc) (doc.holdings.getD i defHoldingDoc) := by
    rw [hmap, List.getD_eq_getElem?_getD, List.getD_eq_getElem?_getD,
        List.getElem?_map, List.getElem?_eq_getElem hi]
    rfl
  have hc2 : (doc.holdings[i]?.getD defHoldingDoc).coin_id = some cid := by
    rw [← List.getD_eq_getElem?_getD]; exact hc
  refine ⟨by rw [hmap]; simp, ?_, ?_, rfl⟩
  · rw [hgd]; simp [itemOf, hc, hc2, hm]
  · rw [hgd]; simp [itemOf, hc, hc2, hm]

/-- C10 witness: the dot holding against a price map that lacks dot. -/
theorem C10_witness :
    (portfolio_summary missFetch missDoc).1.holdings.length = missDoc.holdings.length ∧
    ((portfolio_summary missFetch missDoc).1.holdings.getD 0 defItem).price = 0 ∧
    ((portfolio_summary missFetch missDoc).1.holdings.getD 0 defItem).value = 0 ∧
    (portfolio_summary missFetch missDoc).1.total_value
        = ((portfolio_summary missFetch missDoc).1.holdings.map (fun it => it.value)).sum :=
  C10_missing_price missFetch missDoc 0 (by decide) "dot" (by decide) (by decide)

end NeoExchange
